import Mathlib

/-
Verification of the alternate-file resolver in `fzf_alt` (src/main.rs).

The program locates the "alternate" of a source file (test file for an
implementation file, or vice versa).  The embedding below models, from the
source:

  * `struct Alternate` with its three methods `new`, `strip_filename`,
    `is_test`, `get_alternate_file` (src/main.rs lines 10-62);
  * the `main` control flow (config-path resolution, argument handling,
    the single-resolution branch and the reserved second-argument branch,
    src/main.rs lines 85-126).

Compiled regular expressions are modelled abstractly as a pair of functions:
`is_match` models `Regex::is_match`, and `capturesP` models the composite
`re.captures(s).and_then(|caps| caps.name("p")).map(|m| m.as_str())` staged
as `Option (Option String)`: the outer `Option` is whether `captures`
returned a match at all, the inner one is whether the named group `p`
participated in that match (a group that participates but matches the empty
string yields `some (some "")`, exactly as in the Rust regex crate, where
`Captures::name` returns `Some` with an empty range for such a group).

Side effects of `main` (filesystem probes, config loading, spawning `fzf`,
`Regex::new`) are supplied through an `Env` record of oracle functions, and
the observable behaviour is an `Outcome` record (exit code, stdout lines,
stderr lines, whether the fzf child process was spawned).  A Rust panic
(`expect`, `unreachable!`) is modelled as an exit with code 101 — the code a
panicking Rust process actually returns — carrying the panic message on
stderr; `exit(1)` and an `Err` return from `main` exit with code 1.
-/

namespace FzfAlt

/-- Abstract model of a compiled regular expression (`regex::Regex`).
`is_match s` models `Regex::is_match(s)`; `capturesP s` models
`captures(s)` composed with `name("p")` as described in the header. -/
structure Re where
  is_match : String → Bool
  capturesP : String → Option (Option String)

/-- One filetype entry of the JSON configuration, as consumed by
`Alternate::new`: `strip` models `filetype_config.get("strip").and_then(Value::as_str)`
(`none` when the field is missing or not a string), and likewise
`is_test` models the `"is_test"` field. -/
structure FtEntry where
  strip : Option String
  is_test : Option String

/-- The JSON configuration object: `config.get(&filetype)` as a lookup
function from filetype identifiers to entries. -/
def Config := String → Option FtEntry

/-- The `Alternate` struct of src/main.rs lines 10-14: the request filename
plus the two compiled regexes of the filetype rule. -/
structure Alternate where
  filename : String
  is_test_re : Re
  strip_re : Re

/-- `Alternate::new` (src/main.rs lines 17-41).  Each `expect` is modelled
as an `Except.error` carrying the panic message.  The evaluation order of
the source is kept: filetype lookup, then the `strip` field, then the
`is_test` field, then compilation of the test regex, then of the strip
regex.  `compile` models `Regex::new` (`none` on a pattern that fails to
compile). -/
def Alternate.new (compile : String → Option Re) (filetype filename : String)
    (config : Config) : Except String Alternate :=
  match config filetype with
  | none => .error (filetype ++ " could not be found in config")
  | some filetype_config =>
    match filetype_config.strip with
    | none => .error ("You must define strip in " ++ filetype)
    | some strip_src =>
      match filetype_config.is_test with
      | none => .error ("You must define is_test in " ++ filetype)
      | some is_test_src =>
        match compile is_test_src with
        | none => .error "failed to parse test regex"
        | some is_test_re =>
          match compile strip_src with
          | none => .error "failed to parse strip regex"
          | some strip_re =>
            .ok { strip_re := strip_re, is_test_re := is_test_re, filename := filename }

/-- `Alternate::strip_filename` (src/main.rs lines 43-49):
`captures(filename).and_then(name "p").map(as_str).unwrap_or(filename)`.
The `captures`/`name` composite is `capturesP`; `map(as_str)` is the
identity in the model, and `unwrap_or` is `Option.getD`. -/
def Alternate.strip_filename (a : Alternate) : String :=
  ((a.strip_re.capturesP a.filename).bind (fun caps => caps)).getD a.filename

/-- `Alternate::is_test` (src/main.rs lines 51-53). -/
def Alternate.is_test (a : Alternate) (filename : String) : Bool :=
  a.is_test_re.is_match filename

/-- Helper for `splitWhitespace`: walks the character list accumulating the
current token (in reverse) and emits it at each whitespace run or at the
end. -/
def wsTokens : List Char → List Char → List String
  | [], [] => []
  | [], cur => [String.mk cur.reverse]
  | c :: rest, cur =>
    if c.isWhitespace then
      match cur with
      | [] => wsTokens rest []
      | _ => String.mk cur.reverse :: wsTokens rest []
    else
      wsTokens rest (c :: cur)

/-- Model of Rust `str::split_whitespace`: the maximal non-whitespace runs
of the string, in order (Rust splits on Unicode whitespace; the model uses
`Char.isWhitespace`, which agrees on ASCII input). -/
def splitWhitespace (s : String) : List String :=
  wsTokens s.data []

/-- `Alternate::get_alternate_file` (src/main.rs lines 55-61):
`files.split_whitespace().filter(|file| is_test(file) ^ is_test(filename)).next()`.
The first element of the lazily filtered iterator is the head of the
filtered list. -/
def Alternate.get_alternate_file (a : Alternate) (files : String) : Option String :=
  ((splitWhitespace files).filter
    (fun file => (a.is_test file).xor (a.is_test a.filename))).head?

/-- Helper for `linesOf`: splits a character list at newline characters. -/
def lineTokens : List Char → List Char → List String
  | [], [] => []
  | [], cur => [String.mk cur.reverse]
  | c :: rest, cur =>
    if c = '\n' then String.mk cur.reverse :: lineTokens rest []
    else lineTokens rest (c :: cur)

/-- Line splitting, following the specification's words ("its standard
output, line-split, is the RankedCandidates"): one candidate per line, so a
candidate with internal spaces stays one candidate.  Used only to compare
the specified candidate sequence with the one the code actually scans. -/
def linesOf (s : String) : List String :=
  lineTokens s.data []

/-- Resolution over the line-split candidate sequence, following the
specification's words; to be compared with `Alternate.get_alternate_file`,
which is translated from the source. -/
def Alternate.get_alternate_file_lines (a : Alternate) (files : String) : Option String :=
  ((linesOf files).filter
    (fun file => (a.is_test file).xor (a.is_test a.filename))).head?

/-- Captures model for the concrete Rust regex `(?P<p>a*)b`: the leftmost
match starts at the beginning of the maximal run of `a` characters
immediately before the first `b`, and group `p` captures that run — in
particular the empty string when the first `b` has no `a` before it.
Returns `none` when the string has no `b` (no match). -/
def aStarBCaps : List Char → List Char → Option (Option String)
  | [], _ => none
  | c :: rest, run =>
    if c = 'b' then some (some (String.mk run.reverse))
    else if c = 'a' then aStarBCaps rest (c :: run)
    else aStarBCaps rest []

/-- Concrete `Re` instance modelling the Rust regex `(?P<p>a*)b`. -/
def reAstarB : Re where
  is_match := fun s => (aStarBCaps s.data []).isSome
  capturesP := fun s => aStarBCaps s.data []

/-- Boolean prefix test on character lists (used to state concrete regex
models in a form the kernel can evaluate). -/
def isPrefixChars : List Char → List Char → Bool
  | [], _ => true
  | _ :: _, [] => false
  | a :: as, b :: bs => a = b && isPrefixChars as bs

/-- Concrete `Re` instance modelling the Rust regex `^test/`: it matches
exactly the strings starting with `test/`, and it has no group named `p`,
so `capturesP` yields `some none` on a match. -/
def reTestDir : Re where
  is_match := fun s => isPrefixChars "test/".data s.data
  capturesP := fun s => if isPrefixChars "test/".data s.data then some none else none

/-- A concrete `Alternate` for an implementation-side input file, with the
`^test/` classification rule. -/
def altLib : Alternate where
  filename := "lib/a.ex"
  is_test_re := reTestDir
  strip_re := reTestDir

/-- A concrete `Alternate` whose filename is `b` and whose strip regex is
`(?P<p>a*)b`, so that the strip pattern matches the filename with group `p`
capturing the empty string. -/
def altB : Alternate where
  filename := "b"
  is_test_re := reTestDir
  strip_re := reAstarB

/-- A concrete `Alternate` for a test-side input file. -/
def altTest : Alternate where
  filename := "test/a.ex"
  is_test_re := reTestDir
  strip_re := reTestDir

/-- The effectful collaborators of `main`, as oracle functions:
`pathExists p` models `Path::new(p).exists()`; `load p` models
`load_config(p)` (src/main.rs lines 78-83), with `Except.error` carrying
the displayed I/O or JSON error; `args` models `std::env::args().collect()`
including the program name at index 0; `fzf query` models
`run_fzf(query, None)` — `Except.error` carries the panic message when
spawning or waiting on the child fails; `compile` models `Regex::new`. -/
structure Env where
  pathExists : String → Bool
  load : String → Except String Config
  args : List String
  fzf : String → Except String String
  compile : String → Option Re

/-- Observable behaviour of one process invocation: exit code, lines
printed to standard output, diagnostic lines printed to standard error,
and whether the fzf child process was spawned. -/
structure Outcome where
  exitCode : Nat
  stdout : List String
  stderr : List String
  fzfSpawned : Bool
deriving DecidableEq

/-- Message printed by a Rust `unreachable!()` panic. -/
def unreachableMsg : String := "internal error: entered unreachable code"

/-- Config-path selection of `main` (src/main.rs lines 86-96): the literal
relative path `.fzf_alt.json` if it exists, else the literal relative path
`~/.fzf_alt.json` (the tilde is part of the path string; the source never
expands it), else none. -/
def configPath (env : Env) : Option String :=
  if env.pathExists ".fzf_alt.json" then some ".fzf_alt.json"
  else if env.pathExists "~/.fzf_alt.json" then some "~/.fzf_alt.json"
  else none

/-- The remainder of `main` after a config path has been selected
(src/main.rs lines 98-125): load the config (an `Err` return from `main`
prints the error and exits 1), check the argument count, then branch on the
second and third positional arguments exactly as the `match` in the source:
single-resolution mode constructs the `Alternate` (a failed `expect` panics
with exit code 101 before fzf is spawned), runs fzf on the stripped
filename, and prints the first opposite-classification candidate or exits 1
silently; the reserved two-argument branch does nothing and falls through
to `Ok(())`. -/
def runWithPath (env : Env) (p : String) : Outcome :=
  match env.load p with
  | .error e => ⟨1, [], ["Error: " ++ e], false⟩
  | .ok config =>
    if env.args.length < 2 then ⟨1, [], [], false⟩
    else
      match env.args[1]? with
      | none => ⟨101, [], [unreachableMsg], false⟩
      | some filename =>
        match env.args[2]?, env.args[3]? with
        | none, none => ⟨1, [], [], false⟩
        | some filetype, none =>
          match Alternate.new env.compile filetype filename config with
          | .error msg => ⟨101, [], [msg], false⟩
          | .ok alternate =>
            match env.fzf alternate.strip_filename with
            | .error msg => ⟨101, [], [msg], true⟩
            | .ok files =>
              match alternate.get_alternate_file files with
              | none => ⟨1, [], [], true⟩
              | some r => ⟨0, [r], [], true⟩
        | none, some _ => ⟨101, [], [unreachableMsg], false⟩
        | some _, some _ => ⟨0, [], [], false⟩

/-- `main` (src/main.rs lines 85-126): select the config path, or print the
diagnostic and exit 1 when neither candidate path exists. -/
def main (env : Env) : Outcome :=
  match configPath env with
  | some p => runWithPath env p
  | none => ⟨1, [], [".fzf_alt.json not found in current dir or home dir"], false⟩

/-- The candidate sequence scanned by `get_alternate_file` is the
whitespace-token sequence of the fzf output, searched for the first
opposite-classification element (shared helper). -/
theorem get_alternate_find_aux (a : Alternate) (files : String) :
    a.get_alternate_file files =
      (splitWhitespace files).find?
        (fun file => (a.is_test file).xor (a.is_test a.filename)) := by
  simp [Alternate.get_alternate_file, List.filter_head?]

/-- C1: whenever `get_alternate_file` returns a path `r` rather than no
alternate, the test classification of `r` differs from the classification
of the request filename. -/
theorem get_alternate_file_opposite (a : Alternate) (files r : String)
    (h : a.get_alternate_file files = some r) :
    a.is_test r ≠ a.is_test a.filename := by
  rw [get_alternate_find_aux] at h
  have hp := List.find?_some h
  intro he
  rw [he, Bool.xor_self] at hp
  exact Bool.false_ne_true hp

/-- Witness for C1 at a concrete rule, filename and candidate text. -/
theorem get_alternate_file_opposite_witness :
    altLib.get_alternate_file "lib/b.ex test/a_test.exs" = some "test/a_test.exs" ∧
    altLib.is_test "test/a_test.exs" ≠ altLib.is_test altLib.filename :=
  ⟨by decide,
    get_alternate_file_opposite altLib "lib/b.ex test/a_test.exs" "test/a_test.exs" (by decide)⟩

/-- C2: the path selected by `get_alternate_file` is exactly the earliest
element of the scanned candidate sequence whose classification differs from
the input filename's classification; every earlier candidate fails the
opposite-classification predicate, so a later qualifying candidate is never
returned and the scanned order is the order of the fzf output. -/
theorem get_alternate_file_first_qualifying (a : Alternate) (files r : String) :
    a.get_alternate_file files = some r ↔
      ∃ l₁ l₂, splitWhitespace files = l₁ ++ r :: l₂ ∧
        (a.is_test r).xor (a.is_test a.filename) = true ∧
        ∀ x ∈ l₁, (a.is_test x).xor (a.is_test a.filename) = false := by
  rw [get_alternate_find_aux, List.find?_eq_some]
  constructor
  · rintro ⟨hp, as, bs, hsplit, hall⟩
    exact ⟨as, bs, hsplit, hp, fun x hx => by simpa using hall x hx⟩
  · rintro ⟨l₁, l₂, hsplit, hp, hall⟩
    exact ⟨hp, l₁, l₂, hsplit, fun x hx => by simpa using hall x hx⟩

/-- Witness for C2: on a concrete two-candidate text where only the second
candidate qualifies, the second candidate is returned. -/
theorem get_alternate_file_first_qualifying_witness :
    altLib.get_alternate_file "lib/b.ex test/c.ex" = some "test/c.ex" :=
  (get_alternate_file_first_qualifying altLib "lib/b.ex test/c.ex" "test/c.ex").mpr
    ⟨["lib/b.ex"], [], by decide, by decide, by decide⟩

/-- Counterexample to C3: on the fzf output `a test/b.exs` — a single line,
hence a single line-split candidate containing an internal space — resolution
over the line-split sequence finds nothing, while the code returns
`test/b.exs`, a whitespace fragment of that line.  The scanned sequence is
therefore not the line-split sequence, and a candidate path with an internal
space is not treated as a single candidate. -/
theorem get_alternate_file_line_split_counterexample :
    altLib.get_alternate_file "a test/b.exs" = some "test/b.exs" ∧
    altLib.get_alternate_file_lines "a test/b.exs" = none ∧
    linesOf "a test/b.exs" = ["a test/b.exs"] :=
  ⟨by decide, by decide, by decide⟩

/-- C3 as amended: the candidate sequence scanned by resolution is the fzf
output split on whitespace (so a candidate path containing internal spaces
is treated as several candidates), searched in order for the first
opposite-classification token. -/
theorem get_alternate_file_whitespace_scan (a : Alternate) (files : String) :
    a.get_alternate_file files =
      (splitWhitespace files).find?
        (fun file => (a.is_test file).xor (a.is_test a.filename)) :=
  get_alternate_find_aux a files

/-- Counterexample to C6: with strip regex `(?P<p>a*)b` and filename `b`,
the strip pattern matches the filename and the named group `p` captures the
empty string, yet `strip_filename` returns the empty string, not the
filename verbatim. -/
theorem strip_filename_empty_capture_counterexample :
    altB.strip_re.capturesP altB.filename = some (some "") ∧
    altB.strip_filename ≠ altB.filename ∧
    altB.strip_filename = "" :=
  ⟨by decide, by decide, by decide⟩

/-- C6 as amended: when the strip pattern matches the filename,
`strip_filename` returns the filename verbatim only when the named group
`p` is absent from the match; when `p` participates it returns the captured
substring, including the empty string for an empty capture.  (It never
fails: the function is total.) -/
theorem strip_filename_of_match (a : Alternate) (o : Option String)
    (h : a.strip_re.capturesP a.filename = some o) :
    a.strip_filename = o.getD a.filename := by
  cases o <;> simp [Alternate.strip_filename, h]

/-- Witness for amended C6 at a concrete rule whose strip pattern matches
without a group named `p`: the filename comes back verbatim. -/
theorem strip_filename_of_match_witness :
    altTest.strip_re.capturesP altTest.filename = some none ∧
    altTest.strip_filename = altTest.filename :=
  ⟨by decide, by simpa using strip_filename_of_match altTest none (by decide)⟩

/-- C7: when the strip pattern does not match the filename at all,
`strip_filename` falls back to the filename unchanged. -/
theorem strip_filename_no_match (a : Alternate)
    (h : a.strip_re.capturesP a.filename = none) :
    a.strip_filename = a.filename := by
  simp [Alternate.strip_filename, h]

/-- Witness for C7 at a concrete rule and filename the strip pattern does
not match. -/
theorem strip_filename_no_match_witness :
    altLib.strip_re.capturesP altLib.filename = none ∧
    altLib.strip_filename = altLib.filename :=
  ⟨by decide, strip_filename_no_match altLib (by decide)⟩

/-- C9: even when the input filename occurs verbatim among the candidates,
`get_alternate_file` never returns it: its classification equals itself, so
the opposite-classification predicate excludes it with no special case. -/
theorem no_self_alternate (a : Alternate) (files : String)
    (h : a.filename ∈ splitWhitespace files) :
    a.get_alternate_file files ≠ some a.filename := by
  intro hc
  rw [get_alternate_find_aux] at hc
  have hp := List.find?_some hc
  rw [Bool.xor_self] at hp
  exact Bool.false_ne_true hp

/-- Witness for C9 on a candidate text containing the input filename. -/
theorem no_self_alternate_witness :
    altLib.filename ∈ splitWhitespace "lib/a.ex test/b.ex" ∧
    altLib.get_alternate_file "lib/a.ex test/b.ex" ≠ some altLib.filename :=
  ⟨by decide, no_self_alternate altLib "lib/a.ex test/b.ex" (by decide)⟩

/-- C10: the configuration comes from the literal path `.fzf_alt.json` when
it exists, else from the literal path `~/.fzf_alt.json` (the tilde is part
of the string and never expanded), and when neither exists the process
prints the diagnostic to stderr and exits with status 1 with nothing on
stdout and no fzf process spawned. -/
theorem config_path_resolution (env : Env) :
    main env =
      if env.pathExists ".fzf_alt.json" then runWithPath env ".fzf_alt.json"
      else if env.pathExists "~/.fzf_alt.json" then runWithPath env "~/.fzf_alt.json"
      else { exitCode := 1, stdout := [],
             stderr := [".fzf_alt.json not found in current dir or home dir"],
             fzfSpawned := false } := by
  by_cases h1 : env.pathExists ".fzf_alt.json" <;>
    by_cases h2 : env.pathExists "~/.fzf_alt.json" <;>
      simp [main, configPath, h1, h2]

/-- C4: in single-resolution mode, a filetype absent from the configuration
aborts with the panic exit code and a stderr message naming the filetype;
nothing is printed on stdout and the fzf process is never spawned. -/
theorem unknown_filetype_no_fzf (env : Env) (p prog filename filetype : String)
    (cfg : Config)
    (hp : configPath env = some p) (hload : env.load p = .ok cfg)
    (hargs : env.args = [prog, filename, filetype])
    (hft : cfg filetype = none) :
    main env = { exitCode := 101, stdout := [],
                 stderr := [filetype ++ " could not be found in config"],
                 fzfSpawned := false } := by
  simp [main, hp, runWithPath, hload, hargs, Alternate.new, hft]

/-- Configuration with no filetype entry at all. -/
def cfgEmpty : Config := fun _ => none

/-- Concrete environment for the unknown-filetype scenario: the project
config exists and loads, the request filetype is `haskell`, and the
configuration has no entry for it. -/
def envC4 : Env where
  pathExists := fun _ => true
  load := fun _ => .ok cfgEmpty
  args := ["fzf_alt", "lib/a.ex", "haskell"]
  fzf := fun _ => .ok ""
  compile := fun _ => none

/-- Witness for C4 on the concrete `haskell` request. -/
theorem unknown_filetype_no_fzf_witness :
    configPath envC4 = some ".fzf_alt.json" ∧
    cfgEmpty "haskell" = none ∧
    main envC4 = { exitCode := 101, stdout := [],
                   stderr := ["haskell could not be found in config"],
                   fzfSpawned := false } :=
  ⟨rfl, rfl,
    unknown_filetype_no_fzf envC4 ".fzf_alt.json" "fzf_alt" "lib/a.ex" "haskell"
      cfgEmpty rfl rfl rfl rfl⟩

/-- C5: in single-resolution mode, when no whitespace token of the fzf
output has the opposite classification from the input filename, the process
exits with status 1 and prints nothing at all — no stdout line and no
stderr diagnostic. -/
theorem no_alternate_silent (env : Env) (p prog filename filetype s t files : String)
    (cfg : Config) (reT reS : Re)
    (hp : configPath env = some p) (hload : env.load p = .ok cfg)
    (hargs : env.args = [prog, filename, filetype])
    (hft : cfg filetype = some { strip := some s, is_test := some t })
    (hct : env.compile t = some reT)
    (hcs : env.compile s = some reS)
    (hfzf : env.fzf (Alternate.strip_filename ⟨filename, reT, reS⟩) = .ok files)
    (hnone : ∀ x ∈ splitWhitespace files,
      (reT.is_match x).xor (reT.is_match filename) = false) :
    main env = { exitCode := 1, stdout := [], stderr := [], fzfSpawned := true } := by
  have hga : (⟨filename, reT, reS⟩ : Alternate).get_alternate_file files = none := by
    rw [get_alternate_find_aux, List.find?_eq_none]
    intro x hx
    simp [Alternate.is_test, hnone x hx]
  simp [main, hp, runWithPath, hload, hargs, Alternate.new, hft, hct, hcs, hfzf, hga]

/-- A filetype entry whose two pattern fields are present. -/
def ftEntryW : FtEntry := { strip := some "s", is_test := some "t" }

/-- Configuration mapping every filetype to `ftEntryW`. -/
def cfgW : Config := fun _ => some ftEntryW

/-- Concrete environment for the no-counterpart scenario: everything
succeeds, but every candidate in the fzf output has the same
classification as the input filename. -/
def envC5 : Env where
  pathExists := fun _ => true
  load := fun _ => .ok cfgW
  args := ["fzf_alt", "lib/a.ex", "elixir"]
  fzf := fun _ => .ok "lib/b.ex lib/c.ex"
  compile := fun _ => some reTestDir

/-- Witness for C5 on the concrete same-classification corpus. -/
theorem no_alternate_silent_witness :
    main envC5 = { exitCode := 1, stdout := [], stderr := [], fzfSpawned := true } :=
  no_alternate_silent envC5 ".fzf_alt.json" "fzf_alt" "lib/a.ex" "elixir" "s" "t"
    "lib/b.ex lib/c.ex" cfgW reTestDir reTestDir rfl rfl rfl rfl rfl rfl rfl (by decide)

/-- Concrete environment invoking the reserved second-positional-argument
mode: four command-line words, configuration present and loadable. -/
def envC8 : Env where
  pathExists := fun _ => true
  load := fun _ => .ok cfgEmpty
  args := ["fzf_alt", "lib/a.ex", "elixir", "second"]
  fzf := fun _ => .ok ""
  compile := fun _ => none

/-- Counterexample to C8: with a second positional argument supplied, the
reserved no-op branch falls through to `Ok(())`, so the process exits with
status 0 although no resolved path — indeed nothing at all — was printed. -/
theorem exit_zero_without_output_counterexample :
    (main envC8).exitCode = 0 ∧ (main envC8).stdout = [] :=
  ⟨rfl, rfl⟩

/-- C8 as amended: the process exits with status 0 exactly when either a
resolved path was printed to stdout or the reserved second-positional-
argument no-op branch ran (configuration resolved and loaded, and at least
three positional arguments after the program name were supplied); it exits
non-zero on missing arguments, unknown filetype, configuration load
failure, external-matcher failure, and no alternate found. -/
theorem exit_zero_iff (env : Env) :
    (main env).exitCode = 0 ↔
      ((main env).stdout ≠ [] ∨
        (∃ p cfg, configPath env = some p ∧ env.load p = Except.ok cfg ∧
          4 ≤ env.args.length)) := by
  cases hcp : configPath env with
  | none => simp [main, hcp]
  | some p =>
    cases hl : env.load p with
    | error e => simp [main, runWithPath, hcp, hl]
    | ok cfg =>
      by_cases hlen : env.args.length < 2
      · simp [main, runWithPath, hcp, hl, hlen]
        omega
      · cases h1 : env.args[1]? with
        | none =>
          have := List.getElem?_eq_none_iff.mp h1
          omega
        | some filename =>
          cases h2 : env.args[2]? with
          | none =>
            have hle2 : env.args.length ≤ 2 := List.getElem?_eq_none_iff.mp h2
            cases h3 : env.args[3]? with
            | none =>
              simp [main, runWithPath, hcp, hl, hlen, h1, h2, h3]
              omega
            | some second =>
              obtain ⟨hlt, -⟩ := List.getElem?_eq_some_iff.mp h3
              omega
          | some filetype =>
            cases h3 : env.args[3]? with
            | none =>
              have hle3 : env.args.length ≤ 3 := List.getElem?_eq_none_iff.mp h3
              cases hnew : Alternate.new env.compile filetype filename cfg with
              | error msg =>
                simp [main, runWithPath, hcp, hl, hlen, h1, h2, h3, hnew]
                omega
              | ok alt =>
                cases hz : env.fzf alt.strip_filename with
                | error msg =>
                  simp [main, runWithPath, hcp, hl, hlen, h1, h2, h3, hnew, hz]
                  omega
                | ok files =>
                  cases hga : alt.get_alternate_file files with
                  | none =>
                    simp [main, runWithPath, hcp, hl, hlen, h1, h2, h3, hnew, hz, hga]
                    omega
                  | some r =>
                    simp [main, runWithPath, hcp, hl, hlen, h1, h2, h3, hnew, hz, hga]
            | some second =>
              obtain ⟨hlt, -⟩ := List.getElem?_eq_some_iff.mp h3
              simp [main, runWithPath, hcp, hl, hlen, h1, h2, h3]
              omega

end FzfAlt
